import Mathlib

/-!
# cloud-morph: the WebRTC session of `pkg/core/go/cloudapp/webrtc/webrtc.go`

A shallow embedding of the session object `WebRTC` and of its methods, and the
properties of the signaling codec, of the session life cycle, of the streaming
loops and of the frame-rate estimator.

Conventions of the embedding:

* a Go `[]byte` is a `List Byte`, a Go `string` that carries base64 text is a `String`;
* a Go `error` result is an `Except Error _` (or `Option Error` when nothing else is
  returned), `nil` being `.ok` (or `none`);
* a method that mutates the receiver returns a `Run`: the receiver after the call, the
  calls it made on its collaborators (`Effect`), and whether it returned or panicked;
* the library `pion/webrtc` is outside the repository: the answers it gives during one
  call are an argument of the method (`Call`, `Pion`), and so is the behaviour of
  `encoding/json` on the message types (`JSON`);
* `encoding/base64` is embedded in full (standard alphabet, padded, non strict).
-/

namespace CloudMorph

/-! ## Bytes and errors -/

/-- One byte. -/
abbrev Byte := Fin 256

/-- The value of a Go conversion `byte(n)`. -/
def byteOf (n : Nat) : Byte := ⟨n % 256, Nat.mod_lt _ (by decide)⟩

/-- The `error` values that the methods of the package can return. -/
inductive Error where
  /-- The error `base64.CorruptInputError` -/
  | corruptInput
  /-- an error of `json.Marshal` or `json.Unmarshal` -/
  | json (msg : String)
  /-- an error returned by a call on `pion/webrtc` -/
  | transport (msg : String)
  deriving DecidableEq, Repr

/-! ## `base64.StdEncoding` -/

/-- The standard base64 alphabet, `encodeStd` of `encoding/base64`. -/
def encodeStd : List Char :=
  "ABCDEFGHIJKLMNOPQRSTUVWXYZabcdefghijklmnopqrstuvwxyz0123456789+/".data

/-- The character of a 6-bit value, `enc.encode[i]`. -/
def encodeChar (i : Nat) : Char := encodeStd.getD i 'A'

/-- The 6-bit value of a character, `enc.decodeMap[c]`; `none` stands for `0xFF`. -/
def decodeMap (c : Char) : Option Nat := encodeStd.indexOf? c

/-- Go `base64.StdEncoding.EncodeToString`: three bytes give four characters, the
remainder of one or two bytes is padded with `=`. -/
def EncodeToString : List Byte → List Char
  | [] => []
  | [a] =>
    let val := a.val * 65536
    [encodeChar (val / 262144 % 64), encodeChar (val / 4096 % 64), '=', '=']
  | [a, b] =>
    let val := a.val * 65536 + b.val * 256
    [encodeChar (val / 262144 % 64), encodeChar (val / 4096 % 64),
      encodeChar (val / 64 % 64), '=']
  | a :: b :: c :: rest =>
    let val := a.val * 65536 + b.val * 256 + c.val
    encodeChar (val / 262144 % 64) :: encodeChar (val / 4096 % 64) ::
      encodeChar (val / 64 % 64) :: encodeChar (val % 64) :: EncodeToString rest

/-- The quanta of `base64.StdEncoding.DecodeString` once line breaks are skipped: four
characters give three bytes; padding is accepted in the last quantum only, and anything
else is a `CorruptInputError`. -/
def decodeQuanta : List Char → Except Error (List Byte)
  | [] => .ok []
  | a :: b :: c :: d :: rest =>
    match decodeMap a, decodeMap b with
    | some x, some y =>
      if c = '=' then
        if d = '=' ∧ rest = [] then
          .ok [byteOf ((x * 262144 + y * 4096) / 65536)]
        else .error .corruptInput
      else
        match decodeMap c with
        | none => .error .corruptInput
        | some z =>
          if d = '=' then
            if rest = [] then
              let val := x * 262144 + y * 4096 + z * 64
              .ok [byteOf (val / 65536), byteOf (val / 256)]
            else .error .corruptInput
          else
            match decodeMap d with
            | none => .error .corruptInput
            | some u =>
              let val := x * 262144 + y * 4096 + z * 64 + u
              match decodeQuanta rest with
              | .ok bs => .ok (byteOf (val / 65536) :: byteOf (val / 256) :: byteOf val :: bs)
              | .error e => .error e
    | _, _ => .error .corruptInput
  | _ => .error .corruptInput

/-- Go `base64.StdEncoding.DecodeString`: carriage returns and line feeds are ignored. -/
def DecodeString (s : List Char) : Except Error (List Byte) :=
  decodeQuanta (s.filter fun c => c != '\n' && c != '\r')

/-! ## The signaling codec: `Encode`, `Decode` -/

/-- What `encoding/json` does on the values of one Go type: `json.Marshal` and
`json.Unmarshal` into a fresh value of that type. -/
structure JSON (α : Type) where
  Marshal : α → Except Error (List Byte)
  Unmarshal : List Byte → Except Error α

/-- Function `Encode`: `json.Marshal`, then standard base64. -/
def Encode {α : Type} (J : JSON α) (obj : α) : Except Error String :=
  match J.Marshal obj with
  | .error err => .error err
  | .ok b => .ok (String.mk (EncodeToString b))

/-- Function `Decode`: standard base64, then `json.Unmarshal` into `obj`; the result is the value
of `obj` after a successful call. -/
def Decode {α : Type} (J : JSON α) (s : String) : Except Error α :=
  match DecodeString s.data with
  | .error err => .error err
  | .ok b => J.Unmarshal b

/-- The JSON layer of a message that is kept in serialized form: marshalling hands its
bytes over and unmarshalling stores them. It instantiates `JSON` on concrete inputs. -/
def rawMessage : JSON (List Byte) where
  Marshal := fun m => .ok m
  Unmarshal := fun b => .ok b

/-- The bytes of an ASCII text. -/
def bytesOf (s : String) : List Byte := s.data.map fun c => byteOf c.toNat

/-! ## The session -/

/-- The fields of `WebRTC` that the life cycle reads or writes. `connection` is the
pointer to the peer connection (`none` is `nil`, `some pc` names the transport `pc`);
a channel is represented by whether it has been closed. -/
structure WebRTC where
  connection : Option Nat
  isConnected : Bool
  ImageChannelClosed : Bool
  AudioChannelClosed : Bool
  InputChannelClosed : Bool
  deriving DecidableEq, Repr

/-- What a method does to its collaborators. -/
inductive Effect where
  /-- The call `webrtc.NewPeerConnection` returned the transport `pc` -/
  | newPeerConnection (pc : Nat)
  /-- The callbacks `OnICEConnectionStateChange` and `OnICECandidate` were registered on `pc` -/
  | registerCallbacks (pc : Nat)
  /-- The call `pc.SetRemoteDescription` -/
  | setRemoteDescription (pc : Nat)
  /-- The call `pc.AddICECandidate` -/
  | addICECandidate (pc : Nat)
  /-- The call `pc.Close()` -/
  | closePeerConnection (pc : Nat)
  /-- The statement `close(w.ImageChannel)` -/
  | closeImageChannel
  /-- The statement `close(w.AudioChannel)` -/
  | closeAudioChannel
  /-- The call `time.Sleep(2 * time.Second)` -/
  | sleep
  deriving DecidableEq, Repr

/-- How a call ends. -/
inductive Ret (α : Type) where
  | returned (v : α)
  | panicked (msg : String)
  deriving DecidableEq, Repr

/-- One run of a method: the receiver afterwards, the effects in order, the end. -/
structure Run (α : Type) where
  state : WebRTC
  effects : List Effect
  ret : Ret α
  deriving DecidableEq, Repr

/-- Constructor `NewWebRTC`: no transport, not connected, three open channels. -/
def NewWebRTC : WebRTC :=
  { connection := none, isConnected := false, ImageChannelClosed := false,
    AudioChannelClosed := false, InputChannelClosed := false }

/-- Method `StopClient`. A session that is not connected is bypassed. Otherwise `isConnected` is
cleared, the transport is closed when the pointer is not nil, the pointer is set to nil,
and `ImageChannel` then `AudioChannel` are closed; closing a closed channel panics.
`InputChannel` is not closed. -/
def StopClient (w : WebRTC) : Run Unit :=
  if w.isConnected = false then
    ⟨w, [], .returned ()⟩
  else
    let fx : List Effect :=
      match w.connection with
      | some pc => [.closePeerConnection pc]
      | none => []
    let w1 := { w with isConnected := false, connection := none }
    if w1.ImageChannelClosed then
      ⟨w1, fx, .panicked "close of closed channel"⟩
    else
      let w2 := { w1 with ImageChannelClosed := true }
      if w2.AudioChannelClosed then
        ⟨w2, fx ++ [.closeImageChannel], .panicked "close of closed channel"⟩
      else
        ⟨{ w2 with AudioChannelClosed := true },
          fx ++ [.closeImageChannel, .closeAudioChannel], .returned ()⟩

/-- Method `IsConnected`. -/
def IsConnected (w : WebRTC) : Bool := w.isConnected

/-- The answer of the library to one call: a value, an error, or a panic. -/
inductive Call (α : Type) where
  | ok (v : α)
  | err (e : String)
  | panic (msg : String)
  deriving DecidableEq, Repr

/-- The answers of `pion/webrtc` to the calls of one `StartClient`, in call order. -/
structure Pion (SD : Type) where
  NewPeerConnection : Call Nat
  NewTrackVideo : Call Unit
  AddTrackVideo : Call Unit
  NewTrackAudio : Call Unit
  AddTrackAudio : Call Unit
  AddTransceiverFromKind : Call Unit
  CreateOffer : Call SD
  SetLocalDescription : Call Unit

/-- One checked call inside `StartClient`: a non-nil error is returned at once, with the
empty string. -/
def Call.next {α ρ : Type} (c : Call α) (w : WebRTC) (fx : List Effect)
    (k : α → Run (Except Error ρ)) : Run (Except Error ρ) :=
  match c with
  | .ok v => k v
  | .err e => ⟨w, fx, .returned (.error (.transport e))⟩
  | .panic msg => ⟨w, fx, .panicked msg⟩

/-- The first statements of `StartClient`, under the comment `reset client`: a connected
session is stopped, and the call sleeps two seconds. -/
def resetClient (w : WebRTC) : Run Unit :=
  if w.isConnected then
    let s := StopClient w
    match s.ret with
    | .returned _ => ⟨s.state, s.effects ++ [.sleep], .returned ()⟩
    | .panicked msg => ⟨s.state, s.effects, .panicked msg⟩
  else ⟨w, [], .returned ()⟩

/-- The statements of `StartClient` that follow the creation of the peer connection `pc`:
the two tracks, the transceiver, the callbacks, the offer, the local description and the
encoding of the offer. `w` and `fx` are the session and the effects so far. -/
def negotiate {SD : Type} (J : JSON SD) (t : Pion SD) (pc : Nat) (w : WebRTC)
    (fx : List Effect) : Run (Except Error String) :=
  t.NewTrackVideo.next w fx fun _ =>
  t.AddTrackVideo.next w fx fun _ =>
  t.NewTrackAudio.next w fx fun _ =>
  t.AddTrackAudio.next w fx fun _ =>
  -- the error of AddTransceiverFromKind is overwritten unread
  match t.AddTransceiverFromKind with
  | .panic msg => ⟨w, fx, .panicked msg⟩
  | _ =>
    let fx2 := fx ++ [.registerCallbacks pc]
    t.CreateOffer.next w fx2 fun offer =>
    t.SetLocalDescription.next w fx2 fun _ =>
    match Encode J offer with
    | .error err => ⟨w, fx2, .returned (.error err)⟩
    | .ok localSession => ⟨w, fx2, .returned (.ok localSession)⟩

/-- The body of `StartClient`, before the deferred function runs. The assignment
`w.connection, err = webrtc.NewPeerConnection(..)` stores nil when the call fails. -/
def startBody {SD : Type} (J : JSON SD) (t : Pion SD) (w : WebRTC) :
    Run (Except Error String) :=
  let r := resetClient w
  match r.ret with
  | .panicked msg => ⟨r.state, r.effects, .panicked msg⟩
  | .returned _ =>
    match t.NewPeerConnection with
    | .panic msg => ⟨r.state, r.effects, .panicked msg⟩
    | .err e =>
      ⟨{ r.state with connection := none }, r.effects, .returned (.error (.transport e))⟩
    | .ok pc =>
      negotiate J t pc { r.state with connection := some pc }
        (r.effects ++ [.newPeerConnection pc])

/-- Method `StartClient`: the body, and the deferred function that recovers a panic by calling
`StopClient`; after a recovered panic the results are the zero values, the empty string and a nil error. -/
def StartClient {SD : Type} (J : JSON SD) (t : Pion SD) (w : WebRTC) :
    Run (Except Error String) :=
  let r := startBody J t w
  match r.ret with
  | .returned _ => r
  | .panicked _ =>
    let s := StopClient r.state
    match s.ret with
    | .returned _ => ⟨s.state, r.effects ++ s.effects, .returned (.ok "")⟩
    | .panicked msg => ⟨s.state, r.effects ++ s.effects, .panicked msg⟩

/-- Method `SetRemoteSDP`, given the answer of `SetRemoteDescription`. The method is called
through `w.connection` without a nil test: a nil pointer panics. -/
def SetRemoteSDP {SD : Type} (J : JSON SD) (t : Call Unit) (remoteSDP : String)
    (w : WebRTC) : Run (Option Error) :=
  match Decode J remoteSDP with
  | .error err => ⟨w, [], .returned (some err)⟩
  | .ok _ =>
    match w.connection with
    | none => ⟨w, [], .panicked "invalid memory address or nil pointer dereference"⟩
    | some pc =>
      match t with
      | .ok _ => ⟨w, [.setRemoteDescription pc], .returned none⟩
      | .err e => ⟨w, [.setRemoteDescription pc], .returned (some (.transport e))⟩
      | .panic msg => ⟨w, [.setRemoteDescription pc], .panicked msg⟩

/-- Method `AddCandidate`, given the answer of `AddICECandidate`. The method is called through
`w.connection` without a nil test: a nil pointer panics. -/
def AddCandidate {IC : Type} (J : JSON IC) (t : Call Unit) (candidate : String)
    (w : WebRTC) : Run (Option Error) :=
  match Decode J candidate with
  | .error err => ⟨w, [], .returned (some err)⟩
  | .ok _ =>
    match w.connection with
    | none => ⟨w, [], .panicked "invalid memory address or nil pointer dereference"⟩
    | some pc =>
      match t with
      | .ok _ => ⟨w, [.addICECandidate pc], .returned none⟩
      | .err e => ⟨w, [.addICECandidate pc], .returned (some (.transport e))⟩
      | .panic msg => ⟨w, [.addICECandidate pc], .panicked msg⟩

/-- One step in the life of a session: a call of `StartClient` or `StopClient`, or the
callback registered by `StartClient` being run by a transport with
`ICEConnectionStateConnected` or with one of `Failed`, `Closed`, `Disconnected`. -/
inductive Op (SD : Type) where
  | start (t : Pion SD)
  | iceConnected
  | iceTerminal
  | stop

/-- The effect of one step. The connected callback sets `isConnected`, without reading
`w.connection`, and starts the streaming loops; the terminal callback calls
`StopClient`. -/
def Op.apply {SD : Type} (J : JSON SD) : Op SD → WebRTC → Run Unit
  | .start t, w =>
    let r := StartClient J t w
    match r.ret with
    | .returned _ => ⟨r.state, r.effects, .returned ()⟩
    | .panicked msg => ⟨r.state, r.effects, .panicked msg⟩
  | .iceConnected, w => ⟨{ w with isConnected := true }, [], .returned ()⟩
  | .iceTerminal, w => StopClient w
  | .stop, w => StopClient w

/-- A sequence of steps on one session; a panic ends the sequence. -/
def runOps {SD : Type} (J : JSON SD) : List (Op SD) → WebRTC → Run Unit
  | [], w => ⟨w, [], .returned ()⟩
  | op :: ops, w =>
    let r := op.apply J w
    match r.ret with
    | .panicked msg => ⟨r.state, r.effects, .panicked msg⟩
    | .returned _ =>
      let r2 := runOps J ops r.state
      ⟨r2.state, r.effects ++ r2.effects, r2.ret⟩

/-! ## The streaming loops -/

/-- The video loop of `startStreaming`. The argument is what the loop receives from
`ImageChannel` until the channel is closed and drained, each packet with the error that
`WriteRTP` returns for it; the result is the sequence of packets handed to `WriteRTP`.
An error breaks the loop. -/
def videoLoop {P : Type} : List (P × Option Error) → List P
  | [] => []
  | (packet, none) :: rest => packet :: videoLoop rest
  | (packet, some _) :: _ => [packet]

/-- Constant `audioRate`. -/
def audioRate : Nat := 48000

/-- Constant `audioChannels`. -/
def audioChannels : Nat := 2

/-- Constant `audioMS`. -/
def audioMS : Nat := 20

/-- Constant `audioFrame`. -/
def audioFrame : Nat := audioRate * audioMS / 1000 * audioChannels

/-- A `media.Sample` as built by the audio loop. -/
structure Sample where
  Data : List Byte
  Samples : Nat
  deriving DecidableEq, Repr

/-- The audio loop of `startStreaming`. The argument is what the loop receives from
`AudioChannel`, each item with the value of `w.isConnected` read when it is taken; the
result is the sequence of samples handed to `WriteSample`. The loop returns at the first
item taken while not connected; an error of `WriteSample` is logged and the loop goes
on. -/
def audioLoop : List (List Byte × Bool) → List Sample
  | [] => []
  | (data, isConnected) :: rest =>
    if !isConnected then []
    else { Data := data, Samples := (audioFrame / audioChannels) % 4294967296 } :: audioLoop rest

/-! ## The frame-rate estimator -/

/-- The rounding of `float32` on a non-negative value that is `n` binary units: `n` is
rounded to 24 significant bits, to nearest, ties to the even significand. The result is
in the same unit, whatever the unit (the values met are far from the ends of the exponent
range). -/
def roundFloat32 (n : Nat) : Nat :=
  if n < 16777216 then n
  else
    let sh := Nat.log2 n - 23
    let m := n / 2 ^ sh
    let rem := n % 2 ^ sh
    if 2 ^ (sh - 1) < rem ∨ (rem = 2 ^ (sh - 1) ∧ m % 2 = 1) then (m + 1) * 2 ^ sh
    else m * 2 ^ sh

/-- Method `calculateFPS`, given the elapsed time in nanoseconds since the last call and the
stored `curFPS`; the result is the new `curFPS`. `time.Second / elapsedTime` is an integer
division that panics on zero (`none`). The smoothing is computed as the code does, in
`float32`: the constant 0.9 is the `float32` value 15099494 / 2^24 and the constant 0.1 is
13421773 / 2^27; both integers are converted to `float32`; each product and then the sum
are rounded to `float32` (no fused multiply-add); `int(..)` truncates. The first product
is kept in units of 2^-24, the second product and the sum in units of 2^-27. -/
def calculateFPS (elapsedTime : Nat) (curFPS : Nat) : Option Nat :=
  if elapsedTime = 0 then none
  else
    let q := 1000000000 / elapsedTime
    let p1 := roundFloat32 (roundFloat32 curFPS * 15099494)
    let p2 := roundFloat32 (roundFloat32 q * 13421773)
    some (roundFloat32 (p1 * 8 + p2) / 134217728)

/-- The stored `curFPS` after `n` calls of `calculateFPS` that all see the same elapsed
time, from the stored value `c0`. -/
def fpsAfter (elapsedTime : Nat) : Nat → Nat → Option Nat
  | 0, c0 => some c0
  | n + 1, c0 =>
    match calculateFPS elapsedTime c0 with
    | none => none
    | some c => fpsAfter elapsedTime n c

/-! ## Inputs used at concrete points -/

/-- A transport on which every call of `StartClient` succeeds; the new peer connection is
`pc` and the offer is the serialized description `offer`. -/
def pionOk (pc : Nat) (offer : List Byte) : Pion (List Byte) :=
  { NewPeerConnection := .ok pc, NewTrackVideo := .ok (), AddTrackVideo := .ok (),
    NewTrackAudio := .ok (), AddTrackAudio := .ok (), AddTransceiverFromKind := .ok (),
    CreateOffer := .ok offer, SetLocalDescription := .ok () }

/-- A connected session: transport `7`, all channels open. -/
def connectedSession : WebRTC :=
  { connection := some 7, isConnected := true, ImageChannelClosed := false,
    AudioChannelClosed := false, InputChannelClosed := false }

/-! ## Theorems: base64 and the signaling codec -/

/-- Every 6-bit value is read back from its character of the alphabet. -/
theorem decodeMap_encodeChar_fin :
    ∀ i : Fin 64, decodeMap (encodeChar i.val) = some i.val := by
  decide

/-- No character of the alphabet is the padding character or a line break. -/
theorem encodeChar_plain_fin :
    ∀ i : Fin 64, encodeChar i.val ≠ '=' ∧ encodeChar i.val ≠ '\n' ∧ encodeChar i.val ≠ '\r' := by
  decide

/-- Every 6-bit value is read back from its character of the alphabet. -/
theorem decodeMap_encodeChar (n : Nat) (h : n < 64) : decodeMap (encodeChar n) = some n :=
  decodeMap_encodeChar_fin ⟨n, h⟩

/-- No character of the alphabet is the padding character. -/
theorem encodeChar_ne_pad (n : Nat) (h : n < 64) : encodeChar n ≠ '=' :=
  (encodeChar_plain_fin ⟨n, h⟩).1

/-- The decoder does not skip a character of the alphabet. -/
theorem encodeChar_kept (n : Nat) (h : n < 64) :
    (encodeChar n != '\n' && encodeChar n != '\r') = true := by
  have h1 := (encodeChar_plain_fin ⟨n, h⟩).2.1
  have h2 := (encodeChar_plain_fin ⟨n, h⟩).2.2
  simp only [ne_eq] at h1 h2
  simp [h1, h2]

/-- The quanta of an encoded text decode to the bytes that were encoded. -/
theorem decodeQuanta_EncodeToString (bs : List Byte) :
    decodeQuanta (EncodeToString bs) = .ok bs := by
  induction bs using EncodeToString.induct with
  | case1 => rfl
  | case2 a =>
    have ha := a.isLt
    simp only [EncodeToString, decodeQuanta]
    rw [decodeMap_encodeChar _ (Nat.mod_lt _ (by decide)),
      decodeMap_encodeChar _ (Nat.mod_lt _ (by decide))]
    simp only [and_self, if_true]
    congr 2
    apply Fin.ext
    simp only [byteOf]
    omega
  | case3 a b =>
    have ha := a.isLt
    have hb := b.isLt
    simp only [EncodeToString, decodeQuanta]
    rw [decodeMap_encodeChar _ (Nat.mod_lt _ (by decide)),
      decodeMap_encodeChar _ (Nat.mod_lt _ (by decide))]
    simp only [encodeChar_ne_pad _ (Nat.mod_lt _ (by decide)), if_false, if_true]
    rw [decodeMap_encodeChar _ (Nat.mod_lt _ (by decide))]
    simp only [if_true]
    congr 2
    · apply Fin.ext
      simp only [byteOf]
      omega
    · congr 1
      apply Fin.ext
      simp only [byteOf]
      omega
  | case4 a b c rest ih =>
    have ha := a.isLt
    have hb := b.isLt
    have hc := c.isLt
    simp only [EncodeToString, decodeQuanta]
    rw [decodeMap_encodeChar _ (Nat.mod_lt _ (by decide)),
      decodeMap_encodeChar _ (Nat.mod_lt _ (by decide))]
    simp only [encodeChar_ne_pad _ (Nat.mod_lt _ (by decide)), if_false]
    rw [decodeMap_encodeChar _ (Nat.mod_lt _ (by decide))]
    simp only [encodeChar_ne_pad _ (Nat.mod_lt _ (by decide)), if_false]
    rw [decodeMap_encodeChar _ (Nat.mod_lt _ (by decide))]
    simp only [ih]
    congr 2
    · apply Fin.ext
      simp only [byteOf]
      omega
    · congr 1
      · apply Fin.ext
        simp only [byteOf]
        omega
      · congr 1
        apply Fin.ext
        simp only [byteOf]
        omega

/-- An encoded text holds no line break, so the decoder skips nothing of it. -/
theorem filter_EncodeToString (bs : List Byte) :
    (EncodeToString bs).filter (fun c => c != '\n' && c != '\r') = EncodeToString bs := by
  have hpad : (('=' : Char) != '\n' && ('=' : Char) != '\r') = true := by decide
  induction bs using EncodeToString.induct with
  | case1 => rfl
  | case2 a =>
    simp only [EncodeToString, List.filter_cons, List.filter_nil,
      encodeChar_kept _ (Nat.mod_lt _ (by decide : 0 < 64)), hpad, if_true]
  | case3 a b =>
    simp only [EncodeToString, List.filter_cons, List.filter_nil,
      encodeChar_kept _ (Nat.mod_lt _ (by decide : 0 < 64)), hpad, if_true]
  | case4 a b c rest ih =>
    simp only [EncodeToString, List.filter_cons,
      encodeChar_kept _ (Nat.mod_lt _ (by decide : 0 < 64)), if_true, ih]

/-- Round trip of the base64 layer. -/
theorem DecodeString_EncodeToString (bs : List Byte) :
    DecodeString (EncodeToString bs) = .ok bs := by
  unfold DecodeString
  rw [filter_EncodeToString, decodeQuanta_EncodeToString]

/-- The codec loses nothing that the JSON layer keeps: when `json.Marshal` succeeds on `m`
with bytes that `json.Unmarshal` reads back as `m`, then `Encode` succeeds with a string
`s` and `Decode` of `s` succeeds with `m`. Whether the JSON layer keeps a given session
description or candidate is a fact of `encoding/json` and of the message types of
`pion/webrtc`, and is not settled here. -/
theorem Encode_Decode_of_json {α : Type} (J : JSON α) (m : α) (b : List Byte)
    (hMarshal : J.Marshal m = .ok b) (hUnmarshal : J.Unmarshal b = .ok m) :
    ∃ s : String, Encode J m = .ok s ∧ Decode J s = .ok m := by
  refine ⟨String.mk (EncodeToString b), ?_, ?_⟩
  · simp only [Encode, hMarshal]
  · simp only [Decode, DecodeString_EncodeToString, hUnmarshal]

/-! ## Theorems: `StopClient` -/

/-- C4. StopClient is idempotent: on the session left by a call of StopClient, whatever
the session was before and however that call ended, a further call returns normally,
changes nothing, and closes neither the transport nor a queue. -/
theorem StopClient_idempotent (w : WebRTC) :
    StopClient (StopClient w).state =
      { state := (StopClient w).state, effects := [], ret := .returned () } := by
  rcases w with ⟨c, ic, im, au, inp⟩
  cases ic <;> cases im <;> cases au <;> rfl

/-- A session that is not connected is bypassed by `StopClient`. -/
theorem StopClient_not_connected (w : WebRTC) (h : w.isConnected = false) :
    StopClient w = { state := w, effects := [], ret := .returned () } := by
  simp [StopClient, h]

/-- After `StopClient` the session is not connected, however the call ended. -/
theorem StopClient_isConnected (w : WebRTC) : (StopClient w).state.isConnected = false := by
  rcases w with ⟨c, ic, im, au, inp⟩
  cases ic <;> cases im <;> cases au <;> rfl

/-- The run of `StopClient` on a connected session whose `ImageChannel` and `AudioChannel`
are open. -/
theorem StopClient_connected_run (w : WebRTC) (hc : w.isConnected = true)
    (hi : w.ImageChannelClosed = false) (ha : w.AudioChannelClosed = false) :
    StopClient w =
      { state :=
          { connection := none, isConnected := false, ImageChannelClosed := true,
            AudioChannelClosed := true, InputChannelClosed := w.InputChannelClosed },
        effects :=
          (match w.connection with
            | some pc => [Effect.closePeerConnection pc]
            | none => []) ++ [Effect.closeImageChannel, Effect.closeAudioChannel],
        ret := .returned () } := by
  rcases w with ⟨c, ic, im, au, inp⟩
  simp only at hc hi ha
  subst hc hi ha
  cases c <;> rfl

/-- C3 (amended). On a connected session whose ImageChannel and AudioChannel are open,
StopClient returns normally; afterwards isConnected is false and the transport reference
is nil; the transport, when the reference was not nil, has been closed, then ImageChannel
and AudioChannel have been closed, each once; InputChannel is left as it was. -/
theorem StopClient_closes_connected_session (w : WebRTC) (hc : w.isConnected = true)
    (hi : w.ImageChannelClosed = false) (ha : w.AudioChannelClosed = false) :
    (StopClient w).ret = .returned () ∧
    (StopClient w).state =
      { connection := none, isConnected := false, ImageChannelClosed := true,
        AudioChannelClosed := true, InputChannelClosed := w.InputChannelClosed } ∧
    (StopClient w).effects =
      (match w.connection with
        | some pc => [Effect.closePeerConnection pc]
        | none => []) ++ [Effect.closeImageChannel, Effect.closeAudioChannel] ∧
    (StopClient w).effects.count Effect.closeImageChannel = 1 ∧
    (StopClient w).effects.count Effect.closeAudioChannel = 1 ∧
    (∀ pc, w.connection = some pc →
      (StopClient w).effects.count (Effect.closePeerConnection pc) = 1) := by
  rw [StopClient_connected_run w hc hi ha]
  refine ⟨rfl, rfl, rfl, ?_, ?_, ?_⟩
  · cases w.connection <;> simp [List.count_cons]
  · cases w.connection <;> simp [List.count_cons]
  · intro pc h
    simp [h, List.count_cons]

theorem StopClient_closes_connected_session_witness :
    connectedSession.isConnected = true ∧ connectedSession.ImageChannelClosed = false ∧
    connectedSession.AudioChannelClosed = false ∧
    (StopClient connectedSession).state.connection = none ∧
    (StopClient connectedSession).effects =
      [Effect.closePeerConnection 7, Effect.closeImageChannel, Effect.closeAudioChannel] :=
  ⟨rfl, rfl, rfl,
    congrArg WebRTC.connection
      (StopClient_closes_connected_session connectedSession rfl rfl rfl).2.1,
    (StopClient_closes_connected_session connectedSession rfl rfl rfl).2.2.1⟩

/-- C3 (counterexample). After a successful StartClient on a new session (the session
is negotiating), StopClient closes nothing and the session still refers to its transport;
and on a connected session StopClient leaves InputChannel open. -/
theorem StopClient_negotiating_keeps_transport :
    (StartClient rawMessage (pionOk 1 (bytesOf "v=0")) NewWebRTC).ret =
        .returned (.ok "dj0w") ∧
    (StopClient (StartClient rawMessage (pionOk 1 (bytesOf "v=0")) NewWebRTC).state).ret =
        .returned () ∧
    (StopClient (StartClient rawMessage (pionOk 1 (bytesOf "v=0")) NewWebRTC).state).effects
        = [] ∧
    (StopClient
        (StartClient rawMessage (pionOk 1 (bytesOf "v=0")) NewWebRTC).state).state.connection
        = some 1 ∧
    (StopClient connectedSession).ret = .returned () ∧
    (StopClient connectedSession).state.InputChannelClosed = false :=
  ⟨rfl, rfl, rfl, rfl, rfl, rfl⟩

/-! ## Theorems: `StartClient` -/

/-- The negotiation leaves the session as it is, and what it adds to the effects does not
depend on the effects so far. -/
theorem negotiate_eq {SD : Type} (J : JSON SD) (t : Pion SD) (pc : Nat) (w : WebRTC)
    (fx : List Effect) :
    negotiate J t pc w fx =
      { state := w, effects := fx ++ (negotiate J t pc NewWebRTC []).effects,
        ret := (negotiate J t pc NewWebRTC []).ret } := by
  simp only [negotiate, Call.next]
  repeat' split
  all_goals simp

/-- The negotiation adds nothing to the effects but the registration of the callbacks. -/
theorem negotiate_effects {SD : Type} (J : JSON SD) (t : Pion SD) (pc : Nat) :
    (negotiate J t pc NewWebRTC []).effects = [] ∨
      (negotiate J t pc NewWebRTC []).effects = [Effect.registerCallbacks pc] := by
  simp only [negotiate, Call.next]
  repeat' split
  all_goals simp

/-- After the reset the session is not connected, however the reset ended. -/
theorem resetClient_isConnected (w : WebRTC) : (resetClient w).state.isConnected = false := by
  rcases w with ⟨c, ic, im, au, inp⟩
  cases ic <;> cases im <;> cases au <;> rfl

/-- The reset closes no transport but the one the session refers to. -/
theorem resetClient_close (w : WebRTC) (pc : Nat)
    (h : Effect.closePeerConnection pc ∈ (resetClient w).effects) : w.connection = some pc := by
  rcases w with ⟨c, ic, im, au, inp⟩
  cases ic <;> cases im <;> cases au <;> cases c <;>
    simp [resetClient, StopClient] at h ⊢
  all_goals exact h.symm

/-- The reset of a connected session with open queues is StopClient and the sleep. -/
theorem resetClient_connected (w : WebRTC) (hc : w.isConnected = true)
    (hi : w.ImageChannelClosed = false) (ha : w.AudioChannelClosed = false) :
    resetClient w =
      { state := (StopClient w).state, effects := (StopClient w).effects ++ [Effect.sleep],
        ret := .returned () } := by
  have h : (StopClient w).ret = .returned () := by
    rw [StopClient_connected_run w hc hi ha]
  simp only [resetClient, hc, if_true, h]

/-- The reset of a session that is not connected does nothing. -/
theorem resetClient_not_connected (w : WebRTC) (hc : w.isConnected = false) :
    resetClient w = { state := w, effects := [], ret := .returned () } := by
  simp [resetClient, hc]

/-- The body of `StartClient` leaves the session not connected. -/
theorem startBody_isConnected {SD : Type} (J : JSON SD) (t : Pion SD) (w : WebRTC) :
    (startBody J t w).state.isConnected = false := by
  have h := resetClient_isConnected w
  simp only [startBody]
  split
  · exact h
  · split
    · exact h
    · exact h
    · rw [negotiate_eq]
      exact h

/-- The deferred function of `StartClient` finds the session not connected, so its call of
`StopClient` is bypassed: a panic of the body is recovered and nothing is torn down. -/
theorem StartClient_eq {SD : Type} (J : JSON SD) (t : Pion SD) (w : WebRTC) :
    StartClient J t w =
      match (startBody J t w).ret with
      | .returned _ => startBody J t w
      | .panicked _ =>
        { state := (startBody J t w).state, effects := (startBody J t w).effects,
          ret := .returned (.ok "") } := by
  have h := StopClient_not_connected _ (startBody_isConnected J t w)
  simp only [StartClient, h, List.append_nil]

/-- C2 (amended). On a connected session whose ImageChannel and AudioChannel are open,
StartClient does not refuse the call: it resets the client, that is StopClient runs
(isConnected cleared, transport closed and released, ImageChannel and AudioChannel
closed) and the call sleeps, and then it goes on exactly as StartClient does on the
stopped session, so that the session refers to the new transport when one is created. -/
theorem StartClient_connected_resets {SD : Type} (J : JSON SD) (t : Pion SD) (w : WebRTC)
    (hc : w.isConnected = true) (hi : w.ImageChannelClosed = false)
    (ha : w.AudioChannelClosed = false) :
    (StopClient w).state =
      { connection := none, isConnected := false, ImageChannelClosed := true,
        AudioChannelClosed := true, InputChannelClosed := w.InputChannelClosed } ∧
    (StartClient J t w).state = (StartClient J t (StopClient w).state).state ∧
    (StartClient J t w).ret = (StartClient J t (StopClient w).state).ret ∧
    (StartClient J t w).effects =
      (StopClient w).effects ++
        Effect.sleep :: (StartClient J t (StopClient w).state).effects ∧
    (∀ pc, t.NewPeerConnection = .ok pc →
      (StartClient J t w).state.connection = some pc ∧
      Effect.newPeerConnection pc ∈ (StartClient J t w).effects) := by
  have hs : (StopClient w).state =
      { connection := none, isConnected := false, ImageChannelClosed := true,
        AudioChannelClosed := true, InputChannelClosed := w.InputChannelClosed } := by
    rw [StopClient_connected_run w hc hi ha]
  have hr := resetClient_connected w hc hi ha
  have hr2 := resetClient_not_connected (StopClient w).state (StopClient_isConnected w)
  have hb : startBody J t w =
      { state := (startBody J t (StopClient w).state).state,
        effects := (StopClient w).effects ++
          Effect.sleep :: (startBody J t (StopClient w).state).effects,
        ret := (startBody J t (StopClient w).state).ret } := by
    simp only [startBody, hr, hr2]
    split
    · simp
    · simp
    · rw [negotiate_eq J t _ _ (_ ++ _), negotiate_eq J t _ _ ([] ++ _)]
      simp
  refine ⟨hs, ?_, ?_, ?_, ?_⟩
  · rw [StartClient_eq, StartClient_eq, hb]
    generalize startBody J t (StopClient w).state = B
    rcases B with ⟨st, fx, r⟩
    cases r <;> rfl
  · rw [StartClient_eq, StartClient_eq, hb]
    generalize startBody J t (StopClient w).state = B
    rcases B with ⟨st, fx, r⟩
    cases r <;> rfl
  · rw [StartClient_eq, StartClient_eq, hb]
    generalize startBody J t (StopClient w).state = B
    rcases B with ⟨st, fx, r⟩
    cases r <;> rfl
  · intro pc hpc
    have hn : startBody J t (StopClient w).state =
        negotiate J t pc { (StopClient w).state with connection := some pc }
          ([] ++ [Effect.newPeerConnection pc]) := by
      simp only [startBody, hr2, hpc]
    rw [StartClient_eq, hb, hn, negotiate_eq]
    generalize (negotiate J t pc NewWebRTC []).ret = r
    cases r <;> simp

theorem StartClient_connected_resets_witness :
    connectedSession.isConnected = true ∧ connectedSession.ImageChannelClosed = false ∧
    connectedSession.AudioChannelClosed = false ∧
    (StartClient rawMessage (pionOk 1 (bytesOf "v=0")) connectedSession).effects =
      (StopClient connectedSession).effects ++ Effect.sleep ::
        (StartClient rawMessage (pionOk 1 (bytesOf "v=0"))
          (StopClient connectedSession).state).effects :=
  ⟨rfl, rfl, rfl,
    (StartClient_connected_resets rawMessage (pionOk 1 (bytesOf "v=0")) connectedSession
      rfl rfl rfl).2.2.2.1⟩

/-- C2 (counterexample). StartClient on a connected session, with a transport on which
every call succeeds, returns the encoded offer and no error, and the session is not what
it was: the old transport 7 and two queues are closed, and the session refers to the new
transport 1. -/
theorem StartClient_connected_succeeds :
    connectedSession.isConnected = true ∧
    StartClient rawMessage (pionOk 1 (bytesOf "v=0")) connectedSession =
      { state :=
          { connection := some 1, isConnected := false, ImageChannelClosed := true,
            AudioChannelClosed := true, InputChannelClosed := false },
        effects :=
          [Effect.closePeerConnection 7, Effect.closeImageChannel, Effect.closeAudioChannel,
            Effect.sleep, Effect.newPeerConnection 1, Effect.registerCallbacks 1],
        ret := .returned (.ok "dj0w") } ∧
    (StartClient rawMessage (pionOk 1 (bytesOf "v=0")) connectedSession).state
      ≠ connectedSession :=
  ⟨rfl, rfl, by decide⟩

/-- When the transport `pc` was created (a new one, not the one the session referred to)
and `StartClient` returns an error, the session refers to `pc` and `pc` has not been
closed. -/
theorem StartClient_returned_error {SD : Type} (J : JSON SD) (t : Pion SD)
    (w : WebRTC) (pc : Nat) (e : Error) (hp : t.NewPeerConnection = .ok pc)
    (hfresh : w.connection ≠ some pc)
    (he : (StartClient J t w).ret = .returned (.error e)) :
    (StartClient J t w).state.connection = some pc ∧
    Effect.newPeerConnection pc ∈ (StartClient J t w).effects ∧
    Effect.closePeerConnection pc ∉ (StartClient J t w).effects := by
  rw [StartClient_eq] at he ⊢
  have hclose := resetClient_close w pc
  have hb : startBody J t w =
      match (resetClient w).ret with
      | .panicked msg => ⟨(resetClient w).state, (resetClient w).effects, .panicked msg⟩
      | .returned _ =>
        negotiate J t pc { (resetClient w).state with connection := some pc }
          ((resetClient w).effects ++ [Effect.newPeerConnection pc]) := by
    simp only [startBody, hp]
  rw [hb] at he ⊢
  generalize resetClient w = R at he hclose ⊢
  rcases R with ⟨st, fx, r⟩
  cases r with
  | panicked msg => simp at he
  | returned v =>
    simp only at he hclose ⊢
    rw [negotiate_eq] at he ⊢
    have htail := negotiate_effects J t pc
    generalize negotiate J t pc NewWebRTC [] = N at he htail ⊢
    rcases N with ⟨st2, fx2, r2⟩
    cases r2 with
    | panicked msg => simp at he
    | returned v2 =>
      simp only at htail ⊢
      refine ⟨trivial, by simp, ?_⟩
      intro hmem
      rcases htail with h | h <;> subst h <;> simp at hmem <;> exact hfresh (hclose hmem)

/-- The reset returns, rather than panics, unless the session is connected with a queue
already closed. -/
theorem resetClient_returns (w : WebRTC)
    (h : w.isConnected = false ∨
      (w.ImageChannelClosed = false ∧ w.AudioChannelClosed = false)) :
    (resetClient w).ret = .returned () := by
  rcases w with ⟨c, ic, im, au, inp⟩
  cases ic <;> cases im <;> cases au <;> simp at h <;> rfl

/-- C5 (amended). When the transport `pc` was created (a new one, not the one the session
referred to) and a later step returns an error while the steps before it succeeded (the
creation of a track, AddTrack, CreateOffer, SetLocalDescription, or Encode of the offer),
StartClient returns that error and does not unwind: the session refers to `pc`, and `pc`
has not been closed. -/
theorem StartClient_error_keeps_transport {SD : Type} (J : JSON SD) (t : Pion SD)
    (w : WebRTC) (pc : Nat) (e : Error)
    (hreset : w.isConnected = false ∨
      (w.ImageChannelClosed = false ∧ w.AudioChannelClosed = false))
    (hp : t.NewPeerConnection = .ok pc) (hfresh : w.connection ≠ some pc)
    (hfail :
      (∃ msg, e = .transport msg ∧
        (t.NewTrackVideo = .err msg ∨
         (t.NewTrackVideo = .ok () ∧ t.AddTrackVideo = .err msg) ∨
         (t.NewTrackVideo = .ok () ∧ t.AddTrackVideo = .ok () ∧
           t.NewTrackAudio = .err msg) ∨
         (t.NewTrackVideo = .ok () ∧ t.AddTrackVideo = .ok () ∧
           t.NewTrackAudio = .ok () ∧ t.AddTrackAudio = .err msg) ∨
         (t.NewTrackVideo = .ok () ∧ t.AddTrackVideo = .ok () ∧
           t.NewTrackAudio = .ok () ∧ t.AddTrackAudio = .ok () ∧
           (∀ m, t.AddTransceiverFromKind ≠ .panic m) ∧ t.CreateOffer = .err msg) ∨
         (t.NewTrackVideo = .ok () ∧ t.AddTrackVideo = .ok () ∧
           t.NewTrackAudio = .ok () ∧ t.AddTrackAudio = .ok () ∧
           (∀ m, t.AddTransceiverFromKind ≠ .panic m) ∧
           (∃ offer, t.CreateOffer = .ok offer) ∧ t.SetLocalDescription = .err msg))) ∨
      (t.NewTrackVideo = .ok () ∧ t.AddTrackVideo = .ok () ∧
        t.NewTrackAudio = .ok () ∧ t.AddTrackAudio = .ok () ∧
        (∀ m, t.AddTransceiverFromKind ≠ .panic m) ∧
        ∃ offer, t.CreateOffer = .ok offer ∧ t.SetLocalDescription = .ok () ∧
          Encode J offer = .error e)) :
    (StartClient J t w).ret = .returned (.error e) ∧
    (StartClient J t w).state.connection = some pc ∧
    Effect.newPeerConnection pc ∈ (StartClient J t w).effects ∧
    Effect.closePeerConnection pc ∉ (StartClient J t w).effects := by
  have hn : (negotiate J t pc NewWebRTC []).ret = .returned (.error e) := by
    rcases hfail with ⟨msg, rfl, h | h | h | h | h | h⟩ | h
    · simp [negotiate, Call.next, h]
    · simp [negotiate, Call.next, h.1, h.2]
    · simp [negotiate, Call.next, h.1, h.2.1, h.2.2]
    · simp [negotiate, Call.next, h.1, h.2.1, h.2.2.1, h.2.2.2]
    · obtain ⟨h1, h2, h3, h4, h5, h6⟩ := h
      simp only [negotiate, Call.next, h1, h2, h3, h4, h6]
    · obtain ⟨h1, h2, h3, h4, h5, ⟨offer, h6⟩, h7⟩ := h
      simp only [negotiate, Call.next, h1, h2, h3, h4, h6, h7]
    · obtain ⟨h1, h2, h3, h4, h5, offer, h6, h7, h8⟩ := h
      simp only [negotiate, Call.next, h1, h2, h3, h4, h6, h7, h8]
  have hr := resetClient_returns w hreset
  have hb : (startBody J t w).ret = .returned (.error e) := by
    simp only [startBody, hr, hp]
    rw [negotiate_eq]
    exact hn
  have hret : (StartClient J t w).ret = .returned (.error e) := by
    rw [StartClient_eq]
    generalize startBody J t w = B at hb
    rcases B with ⟨st, fx, r⟩
    simp only at hb
    subst hb
    rfl
  exact ⟨hret, StartClient_returned_error J t w pc e hp hfresh hret⟩

theorem StartClient_error_keeps_transport_witness :
    (StartClient rawMessage
        { pionOk 1 (bytesOf "v=0") with AddTrackVideo := .err "track" } NewWebRTC).ret =
      .returned (.error (.transport "track")) ∧
    (StartClient rawMessage
        { pionOk 1 (bytesOf "v=0") with AddTrackVideo := .err "track" }
        NewWebRTC).state.connection = some 1 :=
  ⟨(StartClient_error_keeps_transport rawMessage
      { pionOk 1 (bytesOf "v=0") with AddTrackVideo := .err "track" } NewWebRTC 1
      (.transport "track") (Or.inl rfl) rfl (by decide)
      (Or.inl ⟨"track", rfl, Or.inr (Or.inl ⟨rfl, rfl⟩)⟩)).1,
    (StartClient_error_keeps_transport rawMessage
      { pionOk 1 (bytesOf "v=0") with AddTrackVideo := .err "track" } NewWebRTC 1
      (.transport "track") (Or.inl rfl) rfl (by decide)
      (Or.inl ⟨"track", rfl, Or.inr (Or.inl ⟨rfl, rfl⟩)⟩)).2.1⟩

/-- C5 (counterexample). On a new session, with a transport that is created and whose
AddTrack for the video track fails, StartClient returns that error while the session
still refers to the transport 1, which has not been closed. -/
theorem StartClient_failed_start_keeps_transport :
    StartClient rawMessage
        { pionOk 1 (bytesOf "v=0") with AddTrackVideo := .err "track" } NewWebRTC =
      { state :=
          { connection := some 1, isConnected := false, ImageChannelClosed := false,
            AudioChannelClosed := false, InputChannelClosed := false },
        effects := [Effect.newPeerConnection 1],
        ret := .returned (.error (.transport "track")) } ∧
    (StartClient rawMessage
        { pionOk 1 (bytesOf "v=0") with AddTrackVideo := .err "track" }
        NewWebRTC).state.connection ≠ none ∧
    Effect.closePeerConnection 1 ∉
      (StartClient rawMessage
        { pionOk 1 (bytesOf "v=0") with AddTrackVideo := .err "track" } NewWebRTC).effects :=
  ⟨rfl, by decide, by decide⟩

/-- A panic inside `StartClient` after the transport was created is recovered, but the
`StopClient` of the deferred function is bypassed: the call returns the empty string and
a nil error, and the session still refers to the transport, which has not been closed. -/
theorem StartClient_panic_keeps_transport :
    StartClient rawMessage
        { pionOk 1 (bytesOf "v=0") with CreateOffer := .panic "offer" } NewWebRTC =
      { state :=
          { connection := some 1, isConnected := false, ImageChannelClosed := false,
            AudioChannelClosed := false, InputChannelClosed := false },
        effects := [Effect.newPeerConnection 1, Effect.registerCallbacks 1],
        ret := .returned (.ok "") } :=
  rfl

/-! ## Theorems: sequences of steps, `AddCandidate` -/

/-- C6 (failing input). Start, connected, stop, start again, connected, stop: the first
stop closes ImageChannel and AudioChannel and returns; the second stop, after closing the
second transport, closes ImageChannel again, which panics. -/
theorem runOps_restart_closes_twice :
    runOps rawMessage
        [.start (pionOk 1 (bytesOf "v=0")), .iceConnected, .stop] NewWebRTC =
      { state :=
          { connection := none, isConnected := false, ImageChannelClosed := true,
            AudioChannelClosed := true, InputChannelClosed := false },
        effects :=
          [Effect.newPeerConnection 1, Effect.registerCallbacks 1,
            Effect.closePeerConnection 1, Effect.closeImageChannel, Effect.closeAudioChannel],
        ret := .returned () } ∧
    runOps rawMessage
        [.start (pionOk 1 (bytesOf "v=0")), .iceConnected, .stop,
          .start (pionOk 2 (bytesOf "v=0")), .iceConnected, .stop] NewWebRTC =
      { state :=
          { connection := none, isConnected := false, ImageChannelClosed := true,
            AudioChannelClosed := true, InputChannelClosed := false },
        effects :=
          [Effect.newPeerConnection 1, Effect.registerCallbacks 1,
            Effect.closePeerConnection 1, Effect.closeImageChannel, Effect.closeAudioChannel,
            Effect.newPeerConnection 2, Effect.registerCallbacks 2,
            Effect.closePeerConnection 2],
        ret := .panicked "close of closed channel" } :=
  ⟨rfl, rfl⟩

/-- A malformed candidate string is answered with the decode error, and no call is made
on the transport. -/
theorem AddCandidate_malformed {IC : Type} (J : JSON IC) (t : Call Unit) (candidate : String)
    (w : WebRTC) (e : Error) (h : Decode J candidate = .error e) :
    AddCandidate J t candidate w = { state := w, effects := [], ret := .returned (some e) } := by
  simp only [AddCandidate, h]

/-- A well-formed candidate on a session without transport panics. -/
theorem AddCandidate_nil_connection {IC : Type} (J : JSON IC) (t : Call Unit)
    (candidate : String) (w : WebRTC) (c : IC) (h : Decode J candidate = .ok c)
    (hw : w.connection = none) :
    (AddCandidate J t candidate w).ret =
      .panicked "invalid memory address or nil pointer dereference" := by
  simp only [AddCandidate, h, hw]

/-- C7 (failing input). The candidate string eyJjYW5kaWRhdGUiOiIifQ== decodes (to the
JSON object with an empty candidate field); on a new session, on which StartClient was
never called, AddCandidate panics on the nil transport reference, and so it does on a
session that was started, connected and stopped. -/
theorem AddCandidate_before_start_panics :
    Decode rawMessage "eyJjYW5kaWRhdGUiOiIifQ==" =
      .ok (bytesOf "\x7b\"candidate\":\"\"\x7d") ∧
    AddCandidate rawMessage (.ok ()) "eyJjYW5kaWRhdGUiOiIifQ==" NewWebRTC =
      { state := NewWebRTC, effects := [],
        ret := .panicked "invalid memory address or nil pointer dereference" } ∧
    (AddCandidate rawMessage (.ok ()) "eyJjYW5kaWRhdGUiOiIifQ=="
        (runOps rawMessage
          [.start (pionOk 1 (bytesOf "v=0")), .iceConnected, .stop] NewWebRTC).state).ret =
      .panicked "invalid memory address or nil pointer dereference" :=
  ⟨rfl, rfl, rfl⟩

/-! ## Theorems: the streaming loops -/

/-- C10. Video loop order and stop on failure: the packets handed to WriteRTP are the
first k packets received from the queue, unchanged and in order, where k is the number
of packets when every write succeeds and otherwise the position (counted from one) of the
first packet whose write fails. -/
theorem videoLoop_eq {P : Type} (q : List (P × Option Error)) :
    videoLoop q =
      (q.map Prod.fst).take
        (match q.findIdx? (fun x => x.2.isSome) with
          | some i => i + 1
          | none => q.length) := by
  induction q with
  | nil => rfl
  | cons x rest ih =>
    rcases x with ⟨p, e⟩
    cases e with
    | some err => simp [videoLoop, List.findIdx?_cons]
    | none =>
      simp only [videoLoop, ih, List.findIdx?_cons, List.map_cons, List.length_cons]
      cases h : List.findIdx? (fun x => x.2.isSome) rest <;> simp [h]

/-- C9 (amended). Audio loop write unit: the samples written are, in order, one for each
item taken before the first item taken while not connected, with that item as data and a
sample count of 960 (audioFrame divided by audioChannels); nothing is written for the
first item taken while not connected nor for any later item. -/
theorem audioLoop_eq (items : List (List Byte × Bool)) :
    audioLoop items =
      (items.takeWhile fun x => x.2).map fun x => { Data := x.1, Samples := 960 } := by
  induction items with
  | nil => rfl
  | cons x rest ih =>
    rcases x with ⟨d, c⟩
    cases c with
    | false => simp [audioLoop]
    | true =>
      simp only [audioLoop, ih, List.takeWhile_cons, List.map_cons]
      simp [audioFrame, audioRate, audioMS, audioChannels]

/-- C9 (counterexample). For one item taken while connected the loop writes one sample
whose count is 960, not 1920. -/
theorem audioLoop_sample_count :
    audioFrame = 1920 ∧
    audioLoop [([1, 2, 3], true)] = [{ Data := [1, 2, 3], Samples := 960 }] ∧
    audioLoop [([1, 2, 3], true)] ≠ [{ Data := [1, 2, 3], Samples := 1920 }] :=
  ⟨by decide, by decide, by decide⟩

/-! ## Theorems: the frame-rate estimator -/

/-- The rounding of a value between 2^(s+24) and 2^(s+25) drops its last s+1 bits. -/
theorem roundFloat32_of_size (n s : Nat) (hlo : 2 ^ (s + 24) ≤ n) (hhi : n < 2 ^ (s + 25)) :
    roundFloat32 n =
      if 2 ^ s < n % 2 ^ (s + 1) ∨ (n % 2 ^ (s + 1) = 2 ^ s ∧ n / 2 ^ (s + 1) % 2 = 1) then
        (n / 2 ^ (s + 1) + 1) * 2 ^ (s + 1)
      else n / 2 ^ (s + 1) * 2 ^ (s + 1) := by
  have hpos : 0 < 2 ^ (s + 24) := Nat.two_pow_pos _
  have hn : n ≠ 0 := by omega
  have h1 : s + 24 ≤ n.log2 := (Nat.le_log2 hn).2 hlo
  have h2 : n.log2 < s + 25 := (Nat.log2_lt hn).2 hhi
  have hlog : n.log2 - 23 = s + 1 := by omega
  have h24 : (16777216 : Nat) ≤ 2 ^ (s + 24) := by
    have : 2 ^ (s + 24) = 2 ^ s * 16777216 := by rw [pow_add]; norm_num
    have hs : 0 < 2 ^ s := Nat.two_pow_pos s
    rw [this]
    exact Nat.le_mul_of_pos_left _ hs
  have hge : ¬ n < 16777216 := by omega
  simp only [roundFloat32, hge, if_false, hlog, Nat.add_sub_cancel]

/-- A stored value that one update keeps is kept by every number of updates. -/
theorem fpsAfter_fixed (e c : Nat) (h : calculateFPS e c = some c) (n : Nat) :
    fpsAfter e n c = some c := by
  induction n with
  | zero => rfl
  | succ n ih =>
    simp only [fpsAfter, h]
    exact ih

/-- The lower end of the band is reached: at the rate 16 (elapsed 62500000 ns) the stored
value 6 is kept by every update, 10 below the rate. -/
theorem fpsAfter_rate_16 (n : Nat) : fpsAfter 62500000 n 6 = some 6 := by
  have e1 : roundFloat32 6 = 6 := by decide
  have e2 : roundFloat32 16 = 16 := by decide
  have e3 : roundFloat32 90596964 = 90596960 := by
    rw [roundFloat32_of_size 90596964 2 (by norm_num) (by norm_num)]
    decide
  have e4 : roundFloat32 214748368 = 214748368 := by
    rw [roundFloat32_of_size 214748368 3 (by norm_num) (by norm_num)]
    decide
  have e5 : roundFloat32 939524048 = 939524032 := by
    rw [roundFloat32_of_size 939524048 5 (by norm_num) (by norm_num)]
    decide
  have h : calculateFPS 62500000 6 = some 6 := by
    simp only [calculateFPS]
    norm_num [e1, e2, e3, e4, e5]
  exact fpsAfter_fixed 62500000 6 h n

/-- Beyond the bounds the band is left: at the rate 5000000 (elapsed 200 ns) the stored
value 5000001 is kept by every update, above the rate. -/
theorem fpsAfter_rate_5000000 (n : Nat) : fpsAfter 200 n 5000001 = some 5000001 := by
  have e1 : roundFloat32 5000001 = 5000001 := by decide
  have e2 : roundFloat32 5000000 = 5000000 := by decide
  have e3 : roundFloat32 75497485099494 = 75497488777216 := by
    rw [roundFloat32_of_size 75497485099494 22 (by norm_num) (by norm_num)]
    decide
  have e4 : roundFloat32 67108865000000 = 67108864000000 := by
    rw [roundFloat32_of_size 67108865000000 21 (by norm_num) (by norm_num)]
    decide
  have e5 : roundFloat32 671088774217728 = 671088774217728 := by
    rw [roundFloat32_of_size 671088774217728 25 (by norm_num) (by norm_num)]
    decide
  have h : calculateFPS 200 5000001 = some 5000001 := by
    simp only [calculateFPS]
    norm_num [e1, e2, e3, e4, e5]
  exact fpsAfter_fixed 200 5000001 h n

end CloudMorph
